import Mathlib

/-!
Shallow embedding of `consensus/types/src/validator.rs` (lighthouse):
the `Validator` record, its lifecycle predicates and the withdrawal
credential codec, with theorems checking the specification's claims.

Epochs and balances are `u64` in the source; they are modelled as `Nat`
(only comparisons occur, no overflowing arithmetic), with the `u64`
sentinel `far_future_epoch = 2^64 - 1` made explicit where it matters.
Byte containers (`Hash256`, `Address`) are modelled as functions from a
bounded index to the byte value.
-/

namespace Lighthouse

/-- `u64::MAX`, the value `Epoch::from(std::u64::MAX)` used as the
"far future" sentinel in `Validator::default`. -/
def U64_MAX : Nat := 2 ^ 64 - 1

/-- `Hash256`: a fixed 32-byte value, byte-indexed. -/
abbrev Hash256 := Fin 32 → Nat

/-- `Address`: a fixed 20-byte execution address, byte-indexed. -/
abbrev Address := Fin 20 → Nat

/-- The fields of `ChainSpec` consumed by `validator.rs`. -/
structure ChainSpec where
  far_future_epoch : Nat
  max_effective_balance : Nat
  eth1_address_withdrawal_prefix_byte : Nat

/-- The one accessor of `BeaconState` consumed by `validator.rs`:
`state.finalized_checkpoint().epoch`. -/
structure BeaconState where
  finalized_checkpoint_epoch : Nat

/-- The `Validator` struct of `validator.rs`. -/
structure Validator where
  pubkey : Nat
  withdrawal_credentials : Hash256
  effective_balance : Nat
  slashed : Bool
  activation_eligibility_epoch : Nat
  activation_epoch : Nat
  exit_epoch : Nat
  withdrawable_epoch : Nat

/-- `Validator::is_active_at`:
`self.activation_epoch <= epoch && epoch < self.exit_epoch`. -/
def Validator.is_active_at (v : Validator) (epoch : Nat) : Bool :=
  decide (v.activation_epoch ≤ epoch) && decide (epoch < v.exit_epoch)

/-- `Validator::is_slashable_at`:
`!self.slashed && self.activation_epoch <= epoch && epoch < self.withdrawable_epoch`. -/
def Validator.is_slashable_at (v : Validator) (epoch : Nat) : Bool :=
  !v.slashed && decide (v.activation_epoch ≤ epoch) && decide (epoch < v.withdrawable_epoch)

/-- `Validator::is_exited_at`: `self.exit_epoch <= epoch`. -/
def Validator.is_exited_at (v : Validator) (epoch : Nat) : Bool :=
  decide (v.exit_epoch ≤ epoch)

/-- `Validator::is_withdrawable_at`: `epoch >= self.withdrawable_epoch`. -/
def Validator.is_withdrawable_at (v : Validator) (epoch : Nat) : Bool :=
  decide (epoch ≥ v.withdrawable_epoch)

/-- `Validator::is_eligible_for_activation_queue`. -/
def Validator.is_eligible_for_activation_queue (v : Validator) (spec : ChainSpec) : Bool :=
  decide (v.activation_eligibility_epoch = spec.far_future_epoch)
    && decide (v.effective_balance = spec.max_effective_balance)

/-- `Validator::is_eligible_for_activation`:
`self.activation_eligibility_epoch <= state.finalized_checkpoint().epoch
 && self.activation_epoch == spec.far_future_epoch`. -/
def Validator.is_eligible_for_activation (v : Validator) (state : BeaconState)
    (spec : ChainSpec) : Bool :=
  decide (v.activation_eligibility_epoch ≤ state.finalized_checkpoint_epoch)
    && decide (v.activation_epoch = spec.far_future_epoch)

/-- `Validator::has_eth1_withdrawal_credential`: byte 0 of
`withdrawal_credentials` equals `spec.eth1_address_withdrawal_prefix_byte`
(`.first()` always succeeds on the fixed 32-byte field). -/
def Validator.has_eth1_withdrawal_credential (v : Validator) (spec : ChainSpec) : Bool :=
  decide (v.withdrawal_credentials ⟨0, by omega⟩ = spec.eth1_address_withdrawal_prefix_byte)

/-- `Validator::get_eth1_withdrawal_address`: when the tag byte matches,
the 20 bytes at offsets `[12,32)` as an `Address` (`.get(12..)` always
succeeds on the fixed 32-byte field); otherwise `None`. -/
def Validator.get_eth1_withdrawal_address (v : Validator) (spec : ChainSpec) : Option Address :=
  if v.has_eth1_withdrawal_credential spec then
    some (fun j : Fin 20 => v.withdrawal_credentials ⟨12 + j.val, by have := j.isLt; omega⟩)
  else
    none

/-- `Validator::change_withdrawal_credentials`: overwrites the whole
32-byte field with `bytes[0] = spec.eth1_address_withdrawal_prefix_byte`,
`bytes[1..12] = 0` (from the `[0u8; 32]` initialisation) and
`bytes[12..32] = execution_address`. -/
def Validator.change_withdrawal_credentials (v : Validator) (execution_address : Address)
    (spec : ChainSpec) : Validator :=
  { v with
    withdrawal_credentials := fun i : Fin 32 =>
      if i.val = 0 then spec.eth1_address_withdrawal_prefix_byte
      else if i.val < 12 then 0
      else execution_address ⟨i.val - 12, by have := i.isLt; omega⟩ }

/-- `Validator::is_fully_withdrawable_at`. -/
def Validator.is_fully_withdrawable_at (v : Validator) (balance : Nat) (epoch : Nat)
    (spec : ChainSpec) : Bool :=
  v.has_eth1_withdrawal_credential spec && decide (v.withdrawable_epoch ≤ epoch)
    && decide (balance > 0)

/-- `Validator::is_partially_withdrawable_validator`. -/
def Validator.is_partially_withdrawable_validator (v : Validator) (balance : Nat)
    (spec : ChainSpec) : Bool :=
  v.has_eth1_withdrawal_credential spec
    && decide (v.effective_balance = spec.max_effective_balance)
    && decide (balance > spec.max_effective_balance)

/-- `impl Default for Validator`: `PublicKeyBytes::empty()`,
`Hash256::default()` (all zero bytes), all four epoch fields at
`u64::MAX`, `slashed = false`, `effective_balance = u64::MAX`. -/
def Validator.mkDefault : Validator :=
  { pubkey := 0
    withdrawal_credentials := fun _ => 0
    effective_balance := U64_MAX
    slashed := false
    activation_eligibility_epoch := U64_MAX
    activation_epoch := U64_MAX
    exit_epoch := U64_MAX
    withdrawable_epoch := U64_MAX }

/-- A concrete `ChainSpec` for evaluating the examples: the mainnet
values `far_future_epoch = u64::MAX`, `max_effective_balance = 32 ETH`
in Gwei, `eth1_address_withdrawal_prefix_byte = 0x01`. -/
def specA : ChainSpec :=
  { far_future_epoch := U64_MAX
    max_effective_balance := 32000000000
    eth1_address_withdrawal_prefix_byte := 1 }

/-- Byte 0 of the field written by `change_withdrawal_credentials`. -/
theorem change_wc_byte0 (v : Validator) (addr : Address) (spec : ChainSpec) :
    (v.change_withdrawal_credentials addr spec).withdrawal_credentials 0
      = spec.eth1_address_withdrawal_prefix_byte := rfl

/-- Bytes [1,12) of the field written by `change_withdrawal_credentials`. -/
theorem change_wc_reserved (v : Validator) (addr : Address) (spec : ChainSpec)
    (k : Nat) (h1 : 0 < k) (h2 : k < 12) :
    (v.change_withdrawal_credentials addr spec).withdrawal_credentials ⟨k, by omega⟩ = 0 := by
  show (if k = 0 then spec.eth1_address_withdrawal_prefix_byte
        else if k < 12 then 0
        else addr ⟨k - 12, by omega⟩) = 0
  rw [if_neg (by omega), if_pos h2]

/-- Bytes [12,32) of the field written by `change_withdrawal_credentials`. -/
theorem change_wc_addr (v : Validator) (addr : Address) (spec : ChainSpec) (j : Fin 20) :
    (v.change_withdrawal_credentials addr spec).withdrawal_credentials
      ⟨12 + j.val, by have := j.isLt; omega⟩ = addr j := by
  show (if 12 + j.val = 0 then spec.eth1_address_withdrawal_prefix_byte
        else if 12 + j.val < 12 then 0
        else addr ⟨12 + j.val - 12, by have := j.isLt; omega⟩) = addr j
  rw [if_neg (by omega), if_neg (by omega)]
  congr 1
  rw [Fin.ext_iff]
  simp

/-- C1: `is_active_at(epoch)` returns true iff
`activation_epoch ≤ epoch < exit_epoch` (lower bound inclusive, upper
bound exclusive); for a record with `activation_epoch = 10` and all other
fields default, `is_active_at(9) = false`, `is_active_at(10) = true`,
`is_active_at(11) = true`. -/
theorem c1_is_active_at_boundary :
    (∀ (v : Validator) (epoch : Nat),
      v.is_active_at epoch = true ↔
        v.activation_epoch ≤ epoch ∧ epoch < v.exit_epoch) ∧
    ({ Validator.mkDefault with activation_epoch := 10 } : Validator).is_active_at 9 = false ∧
    ({ Validator.mkDefault with activation_epoch := 10 } : Validator).is_active_at 10 = true ∧
    ({ Validator.mkDefault with activation_epoch := 10 } : Validator).is_active_at 11 = true := by
  refine ⟨fun v epoch => ?_, ?_, ?_, ?_⟩
  · simp [Validator.is_active_at]
  all_goals decide

/-- C2 counterexample: for the default record, at the representable epoch
`E = u64::MAX` (the sentinel itself), `is_exited_at(E)` and
`is_withdrawable_at(E)` both return true, refuting "for every epoch E,
is_exited_at(E) = false and is_withdrawable_at(E) = false". -/
theorem c2_sentinel_epoch_refutes :
    Validator.mkDefault.is_exited_at U64_MAX = true ∧
    Validator.mkDefault.is_withdrawable_at U64_MAX = true := by
  constructor <;> decide

/-- C2 (amended): for the default ("never active") record and every epoch
`E` strictly below the `u64::MAX` sentinel, `is_active_at(E) = false`,
`is_exited_at(E) = false`, `is_withdrawable_at(E) = false`, and
`slashed = false`. -/
theorem c2_default_predicates (E : Nat) (h : E < U64_MAX) :
    Validator.mkDefault.is_active_at E = false ∧
    Validator.mkDefault.is_exited_at E = false ∧
    Validator.mkDefault.is_withdrawable_at E = false ∧
    Validator.mkDefault.slashed = false := by
  have h' : E < 2 ^ 64 - 1 := h
  refine ⟨?_, ?_, ?_, rfl⟩ <;>
    simp [Validator.is_active_at, Validator.is_exited_at, Validator.is_withdrawable_at,
      Validator.mkDefault, U64_MAX] <;> omega

/-- C2 witness: the amended statement evaluated at epoch 0. -/
theorem c2_default_predicates_witness :
    (0 : Nat) < U64_MAX ∧
    (Validator.mkDefault.is_active_at 0 = false ∧
     Validator.mkDefault.is_exited_at 0 = false ∧
     Validator.mkDefault.is_withdrawable_at 0 = false ∧
     Validator.mkDefault.slashed = false) :=
  ⟨by decide, c2_default_predicates 0 (by decide)⟩

/-- C3: for every record, 20-byte address and spec, calling
`change_withdrawal_credentials(addr, spec)` and then
`get_eth1_withdrawal_address(spec)` returns `some addr`. -/
theorem c3_roundtrip (v : Validator) (addr : Address) (spec : ChainSpec) :
    (v.change_withdrawal_credentials addr spec).get_eth1_withdrawal_address spec = some addr := by
  have h : (v.change_withdrawal_credentials addr spec).has_eth1_withdrawal_credential spec
      = true := by
    simp [Validator.has_eth1_withdrawal_credential, change_wc_byte0]
  simp only [Validator.get_eth1_withdrawal_address, h, if_true]
  congr 1
  funext j
  exact change_wc_addr v addr spec j

/-- C4: `change_withdrawal_credentials(addr, spec)` overwrites the whole
32-byte field for every prior value: byte 0 equals
`eth1_address_withdrawal_prefix_byte`, bytes [1,12) are zero, and bytes
[12,32) equal the given 20-byte address (total, no failure mode). -/
theorem c4_change_overwrites (v : Validator) (addr : Address) (spec : ChainSpec) :
    ((v.change_withdrawal_credentials addr spec).withdrawal_credentials ⟨0, by omega⟩
        = spec.eth1_address_withdrawal_prefix_byte) ∧
    (∀ i : Fin 11,
      (v.change_withdrawal_credentials addr spec).withdrawal_credentials
        ⟨i.val + 1, by have := i.isLt; omega⟩ = 0) ∧
    (∀ j : Fin 20,
      (v.change_withdrawal_credentials addr spec).withdrawal_credentials
        ⟨j.val + 12, by have := j.isLt; omega⟩ = addr j) := by
  refine ⟨rfl, fun i => ?_, fun j => ?_⟩
  · exact change_wc_reserved v addr spec (i.val + 1) (by omega) (by have := i.isLt; omega)
  · have h : (⟨j.val + 12, by have := j.isLt; omega⟩ : Fin 32)
        = ⟨12 + j.val, by have := j.isLt; omega⟩ := by
      simp only [Fin.mk.injEq]
      omega
    rw [h]
    exact change_wc_addr v addr spec j

/-- C5: `get_eth1_withdrawal_address(spec)` returns `some` of the 20
bytes at offsets [12,32) of `withdrawal_credentials` when byte 0 equals
`eth1_address_withdrawal_prefix_byte`, and `none` otherwise. -/
theorem c5_get_eth1_withdrawal_address (v : Validator) (spec : ChainSpec) :
    v.get_eth1_withdrawal_address spec =
      if v.withdrawal_credentials ⟨0, by omega⟩ = spec.eth1_address_withdrawal_prefix_byte
      then some (fun j : Fin 20 =>
        v.withdrawal_credentials ⟨12 + j.val, by have := j.isLt; omega⟩)
      else none := by
  simp [Validator.get_eth1_withdrawal_address, Validator.has_eth1_withdrawal_credential]

/-- C6: `is_eligible_for_activation(state, spec)` returns true iff
`activation_eligibility_epoch ≤ state.finalized_checkpoint.epoch` and
`activation_epoch = far_future_epoch`; with
`activation_eligibility_epoch = 3` it is true at finalized epoch 3 with
unset activation epoch, false at finalized epoch 2, and false once the
activation epoch is already set. -/
theorem c6_is_eligible_for_activation :
    (∀ (v : Validator) (state : BeaconState) (spec : ChainSpec),
      v.is_eligible_for_activation state spec = true ↔
        (v.activation_eligibility_epoch ≤ state.finalized_checkpoint_epoch ∧
         v.activation_epoch = spec.far_future_epoch)) ∧
    ({ Validator.mkDefault with activation_eligibility_epoch := 3 } : Validator
      ).is_eligible_for_activation ⟨3⟩ specA = true ∧
    ({ Validator.mkDefault with activation_eligibility_epoch := 3 } : Validator
      ).is_eligible_for_activation ⟨2⟩ specA = false ∧
    ({ Validator.mkDefault with
        activation_eligibility_epoch := 3
        activation_epoch := 4 } : Validator).is_eligible_for_activation ⟨3⟩ specA = false := by
  refine ⟨fun v state spec => ?_, ?_, ?_, ?_⟩
  · simp [Validator.is_eligible_for_activation]
  all_goals decide

/-- C7: `is_slashable_at(epoch)` returns true iff `slashed` is false,
`activation_epoch ≤ epoch`, and `epoch < withdrawable_epoch`; in
particular it is false for every record whose `slashed` flag is set. -/
theorem c7_is_slashable_at :
    (∀ (v : Validator) (epoch : Nat),
      v.is_slashable_at epoch = true ↔
        (v.slashed = false ∧ v.activation_epoch ≤ epoch ∧
         epoch < v.withdrawable_epoch)) ∧
    (∀ (v : Validator) (epoch : Nat),
      ({ v with slashed := true } : Validator).is_slashable_at epoch = false) := by
  constructor
  · intro v epoch
    simp [Validator.is_slashable_at, and_assoc]
  · intro v epoch
    simp [Validator.is_slashable_at]

/-- C8: `is_fully_withdrawable_at(balance, epoch, spec)` returns true iff
the record has an eth1 withdrawal credential, `withdrawable_epoch ≤ epoch`,
and `balance > 0`; with an eth1 credential and `withdrawable_epoch = 5` it
is true at epoch 5 with balance 1, false with balance 0, and false at
epoch 4. -/
theorem c8_is_fully_withdrawable_at :
    (∀ (v : Validator) (balance : Nat) (epoch : Nat) (spec : ChainSpec),
      v.is_fully_withdrawable_at balance epoch spec = true ↔
        (v.has_eth1_withdrawal_credential spec = true ∧
         v.withdrawable_epoch ≤ epoch ∧ balance > 0)) ∧
    ({ Validator.mkDefault with
        withdrawal_credentials := fun i => if i.val = 0 then 1 else 0
        withdrawable_epoch := 5 } : Validator).is_fully_withdrawable_at 1 5 specA = true ∧
    ({ Validator.mkDefault with
        withdrawal_credentials := fun i => if i.val = 0 then 1 else 0
        withdrawable_epoch := 5 } : Validator).is_fully_withdrawable_at 0 5 specA = false ∧
    ({ Validator.mkDefault with
        withdrawal_credentials := fun i => if i.val = 0 then 1 else 0
        withdrawable_epoch := 5 } : Validator).is_fully_withdrawable_at 1 4 specA = false := by
  refine ⟨fun v balance epoch spec => ?_, ?_, ?_, ?_⟩
  · simp [Validator.is_fully_withdrawable_at, and_assoc]
  all_goals decide

/-- C9: `change_withdrawal_credentials` mutates only
`withdrawal_credentials`; `pubkey`, `effective_balance`, `slashed`,
`activation_eligibility_epoch`, `activation_epoch`, `exit_epoch` and
`withdrawable_epoch` are unchanged. -/
theorem c9_change_frame (v : Validator) (addr : Address) (spec : ChainSpec) :
    (v.change_withdrawal_credentials addr spec).pubkey = v.pubkey ∧
    (v.change_withdrawal_credentials addr spec).effective_balance = v.effective_balance ∧
    (v.change_withdrawal_credentials addr spec).slashed = v.slashed ∧
    (v.change_withdrawal_credentials addr spec).activation_eligibility_epoch
      = v.activation_eligibility_epoch ∧
    (v.change_withdrawal_credentials addr spec).activation_epoch = v.activation_epoch ∧
    (v.change_withdrawal_credentials addr spec).exit_epoch = v.exit_epoch ∧
    (v.change_withdrawal_credentials addr spec).withdrawable_epoch = v.withdrawable_epoch :=
  ⟨rfl, rfl, rfl, rfl, rfl, rfl, rfl⟩

/-- C10: for every record and epoch, `is_active_at(epoch)` and
`is_exited_at(epoch)` are never both true: active requires
`epoch < exit_epoch` while exited requires `exit_epoch ≤ epoch`. -/
theorem c10_active_exited_exclusive (v : Validator) (epoch : Nat) :
    (v.is_active_at epoch && v.is_exited_at epoch) = false := by
  simp only [Validator.is_active_at, Validator.is_exited_at, Bool.and_eq_false_iff,
    decide_eq_false_iff_not, Bool.and_eq_true, decide_eq_true_eq]
  omega

end Lighthouse
